import Mathlib

/-!
Verification of the `exp` RPC runtime (Python SDK) against its
natural-language specification.

The definitions below are a shallow embedding of the Python source:

* `src/exp/types.py`                      — wire types and error codes
* `src/exp/shared/session.py`             — `BaseSession`, `RequestResponder`
* `src/exp/exporter/lowlevel/server.py`   — `Server.call_function` dispatch
* `src/exp/exporter/highlevel/server.py`  — `Exporter._setup_handlers`
* `src/exp/exporter/highlevel/functions/function_manager.py`
* `src/exp/importer/session.py`           — `ClientSession.call_function`

Asynchronous effects are made explicit: an `await` whose outcome depends on
the environment (a stream delivery, a timeout, a raised exception) becomes a
parameter enumerating the possible outcomes, and `raise` becomes `Except`.
Python dicts keyed by request id become association lists.
-/

namespace Exp

/-- JSON values: the model of Python `dict`/`list`/`str`/`int`/`bool`/`None`
payloads travelling on the wire. -/
inductive Json where
  | null
  | bool (b : Bool)
  | num (n : Int)
  | str (s : String)
  | arr (elems : List Json)
  | obj (fields : List (String × Json))
deriving Repr, BEq

/-- A JSON object body (Python `dict[str, Any]`), as used for `params`,
`result` and structured function output. -/
abbrev Structured := List (String × Json)

mutual

/-- Model of Python `json.dumps` on a JSON value (formatting details such as
`indent=2` whitespace are abstracted; only that the dict is rendered as JSON
text matters to the properties below). -/
def Json.dumps : Json → String
  | Json.null => "null"
  | Json.bool b => cond b "true" "false"
  | Json.num n => toString n
  | Json.str s => "\"" ++ s ++ "\""
  | Json.arr elems => "[" ++ Json.dumpsArr elems ++ "]"
  | Json.obj fields => "\x7b" ++ Json.dumpsObj fields ++ "\x7d"

/-- Renders the elements of a JSON array, comma-separated. -/
def Json.dumpsArr : List Json → String
  | [] => ""
  | [x] => Json.dumps x
  | x :: xs => Json.dumps x ++ ", " ++ Json.dumpsArr xs

/-- Renders the fields of a JSON object, comma-separated. -/
def Json.dumpsObj : List (String × Json) → String
  | [] => ""
  | [(k, v)] => "\"" ++ k ++ "\": " ++ Json.dumps v
  | (k, v) :: fs => "\"" ++ k ++ "\": " ++ Json.dumps v ++ ", " ++ Json.dumpsObj fs

end

/-- `True` exactly on `Json.null`; used to model `exclude_none` dumping. -/
def Json.isNull : Json → Bool
  | Json.null => true
  | _ => false

/-- Request correlator (`RequestId = str | int` in `types.py`). -/
inductive RequestId where
  | num (n : Int)
  | str (s : String)
deriving Repr, DecidableEq

/-- Association-list lookup for maps keyed by `RequestId`
(model of Python `dict.get`). -/
def rlookup {α : Type} : List (RequestId × α) → RequestId → Option α
  | [], _ => none
  | (k, v) :: rest, k' => if k = k' then some v else rlookup rest k'

/-- Association-list insert (model of Python `d[k] = v`): replaces an
existing binding for the key, otherwise appends. -/
def rinsert {α : Type} : List (RequestId × α) → RequestId → α → List (RequestId × α)
  | [], k, v => [(k, v)]
  | (k', v') :: rest, k, v =>
      if k' = k then (k, v) :: rest else (k', v') :: rinsert rest k v

/-- Association-list removal (model of Python `d.pop(k, None)`). -/
def rpop {α : Type} (m : List (RequestId × α)) (k : RequestId) : List (RequestId × α) :=
  m.filter (fun p => p.1 ≠ k)

/-- String-keyed lookup (model of Python `dict.get` on `dict[str, ...]`). -/
def slookup {α : Type} : List (String × α) → String → Option α
  | [], _ => none
  | (k, v) :: rest, k' => if k = k' then some v else slookup rest k'

/-! ### Error codes (`src/exp/types.py`, lines 77-86) -/

/-- SDK error code: connection closed. -/
def CONNECTION_CLOSED : Int := -32000

/-- Standard JSON-RPC: parse error. -/
def PARSE_ERROR : Int := -32700

/-- Standard JSON-RPC: invalid request. -/
def INVALID_REQUEST : Int := -32600

/-- Standard JSON-RPC: method not found. -/
def METHOD_NOT_FOUND : Int := -32601

/-- Standard JSON-RPC: invalid params. -/
def INVALID_PARAMS : Int := -32602

/-- Standard JSON-RPC: internal error. -/
def INTERNAL_ERROR : Int := -32603

/-- `httpx.codes.REQUEST_TIMEOUT`, the code `send_request` puts in the
`McpError` raised on timeout. -/
def REQUEST_TIMEOUT : Int := 408

/-- `ErrorData` from `types.py`: `code`, `message`, optional `data`. -/
structure ErrorData where
  code : Int
  message : String
  data : Option Json := none
deriving Repr

/-- `JSONRPCResponse`: a successful response carrying a result object. -/
structure JSONRPCResponse where
  id : RequestId
  result : Structured
deriving Repr

/-- `JSONRPCError`: an error response carrying `ErrorData`. -/
structure JSONRPCError where
  id : RequestId
  error : ErrorData
deriving Repr

/-- What a pending caller's response stream can carry
(`JSONRPCResponse | JSONRPCError` in `session.py`). -/
inductive ResponseOrError where
  | response (r : JSONRPCResponse)
  | error (e : JSONRPCError)
deriving Repr

/-- `JSONRPCRequest`: id, method, optional params. -/
structure JSONRPCRequest where
  id : RequestId
  method : String
  params : Option Structured := none
deriving Repr

end Exp

namespace Exp

/-! ### Request responder (`src/exp/shared/session.py`, `RequestResponder`) -/

/-- Lifecycle state of a `RequestResponder`: `_completed`, `_entered`, and
`_cancel_scope.cancel_called` (the `cancelled` property). The decoded request
payload plays no role in the lifecycle and is not tracked. -/
structure Responder where
  request_id : RequestId
  completed : Bool := false
  entered : Bool := false
  cancel_called : Bool := false
deriving Repr, DecidableEq

/-- The two fail-fast contract violations `respond` can raise. -/
inductive ContractViolation where
  | runtimeError (msg : String)
  | assertionError (msg : String)
deriving Repr, DecidableEq

/-- `BaseSession._send_response`: an `ErrorData` becomes a `JSONRPCError`
envelope, anything else a `JSONRPCResponse` envelope, for the given id. -/
def send_response_message (request_id : RequestId) : Structured ⊕ ErrorData → ResponseOrError
  | .inl result => .response ⟨request_id, result⟩
  | .inr e => .error ⟨request_id, e⟩

/-- `RequestResponder.__enter__`: sets `_entered` and installs a fresh cancel
scope (so `cancel_called` is reset). -/
def Responder.enter (r : Responder) : Responder :=
  { r with entered := true, cancel_called := false }

/-- `RequestResponder.respond`: checks `_entered` (else `RuntimeError`),
asserts `not _completed` (else `AssertionError`), and — unless cancelled —
marks completed and sends exactly one response envelope. Returns the updated
responder together with the envelopes written to the session. -/
def Responder.respond (r : Responder) (response : Structured ⊕ ErrorData) :
    Except ContractViolation (Responder × List ResponseOrError) :=
  if !r.entered then
    .error (.runtimeError "RequestResponder must be used as a context manager")
  else if r.completed then
    .error (.assertionError "Request already responded to")
  else if r.cancel_called then
    .ok (r, [])
  else
    .ok ({ r with completed := true }, [send_response_message r.request_id response])

/-- The `ErrorData` synthesized by `RequestResponder.cancel`. -/
def cancelledError : ErrorData := { code := 0, message := "Request cancelled", data := none }

/-- `RequestResponder.cancel`: checks `_entered`, arms the cancel scope,
marks completed, and sends one `JSONRPCError` for the request id. -/
def Responder.cancel (r : Responder) :
    Except ContractViolation (Responder × List ResponseOrError) :=
  if !r.entered then
    .error (.runtimeError "RequestResponder must be used as a context manager")
  else
    .ok ({ r with cancel_called := true, completed := true },
         [.error ⟨r.request_id, cancelledError⟩])

/-- `RequestResponder.__exit__`: if completed, runs `on_complete` (which pops
the responder from the in-flight map); always clears `_entered`. -/
def Responder.exit (r : Responder) (in_flight : List (RequestId × Responder)) :
    Responder × List (RequestId × Responder) :=
  ({ r with entered := false },
   if r.completed then rpop in_flight r.request_id else in_flight)

/-- The operations the responder API offers once entered: `respond` (with a
caller-supplied result or error payload) or `cancel`. -/
inductive ResponderOp where
  | respondOp (response : Structured ⊕ ErrorData)
  | cancelOp
deriving Repr

/-- Dispatch of a `ResponderOp` to the corresponding method. -/
def Responder.applyOp (r : Responder) : ResponderOp → Except ContractViolation (Responder × List ResponseOrError)
  | .respondOp response => r.respond response
  | .cancelOp => r.cancel

/-- Whether an operation is a `respond`, i.e. carries a caller-supplied
response payload. -/
def ResponderOp.isRespond : ResponderOp → Bool
  | .respondOp _ => true
  | .cancelOp => false

/-! ### Session core (`src/exp/shared/session.py`, `BaseSession`) -/

/-- One pending caller response stream
(`anyio.create_memory_object_stream[JSONRPCResponse | JSONRPCError](1)`):
a single-slot buffer plus a closed flag. -/
structure PendingSlot where
  buf : Option ResponseOrError := none
  closed : Bool := false
deriving Repr

/-- The `BaseSession` bookkeeping state: the `_request_id` counter, the
`_response_streams` map of pending callers, `_progress_callbacks`, the
`_in_flight` responder map, and the constructor argument
`read_timeout_seconds` (`_session_read_timeout_seconds`), in seconds. -/
structure SessionState where
  request_id : Int := 0
  session_read_timeout : Option ℚ := none
  response_streams : List (RequestId × PendingSlot) := []
  progress_callbacks : List (RequestId × Unit) := []
  in_flight : List (RequestId × Responder) := []
deriving Repr

/-- The timeout selection in `send_request`: a per-request timeout takes
precedence over the session read timeout; with neither, 20 seconds. -/
def effective_timeout (request_read_timeout_seconds : Option ℚ)
    (session_read_timeout_seconds : Option ℚ) : ℚ :=
  match request_read_timeout_seconds with
  | some t => t
  | none =>
    match session_read_timeout_seconds with
    | some t => t
    | none => 20

/-- The message of the timeout `McpError` raised by `send_request`. -/
def timeout_message (requestClassName : String) (timeout : ℚ) : String :=
  "Timed out while waiting for response to " ++ requestClassName ++
    ". Waited " ++ toString timeout ++ " seconds."

/-- Environment outcome of the awaiting part of `send_request`: the write
raised, the `fail_after` scope expired, or the receive loop delivered a
response or error envelope into the pending slot. -/
inductive AwaitOutcome where
  | writeFailed (msg : String)
  | timedOut
  | delivered (m : ResponseOrError)
deriving Repr

/-- How `send_request` can raise: a plain exception propagating (failed
write, result validation failure) or an `McpError` carrying `ErrorData`. -/
inductive SendError where
  | raised (msg : String)
  | mcpError (e : ErrorData)
deriving Repr

/-- `BaseSession.send_request`: allocates a fresh id, registers a pending
response stream, writes the request, awaits the response under the effective
timeout, and in `finally` pops the pending entry (and progress callback) and
closes the stream — on every exit path. `validate_result` embeds
`result_type.model_validate`; `awaited` is the environment outcome. -/
def send_request {ρ : Type}
    (st : SessionState)
    (requestClassName : String)
    (validate_result : Structured → Except String ρ)
    (request_read_timeout_seconds : Option ℚ)
    (awaited : AwaitOutcome) :
    Except SendError ρ × SessionState :=
  let request_id : RequestId := .num st.request_id
  let st1 : SessionState :=
    { st with request_id := st.request_id + 1,
              response_streams := rinsert st.response_streams request_id {} }
  let timeout := effective_timeout request_read_timeout_seconds st.session_read_timeout
  let result : Except SendError ρ :=
    match awaited with
    | .writeFailed msg => .error (.raised msg)
    | .timedOut =>
        .error (.mcpError
          { code := REQUEST_TIMEOUT,
            message := timeout_message requestClassName timeout })
    | .delivered (.error e) => .error (.mcpError e.error)
    | .delivered (.response r) =>
        match validate_result r.result with
        | .ok v => .ok v
        | .error msg => .error (.raised msg)
  (result,
   { st1 with
       response_streams := rpop st1.response_streams request_id,
       progress_callbacks := rpop st1.progress_callbacks request_id })

end Exp

namespace Exp

/-! ### Receive loop (`BaseSession._receive_loop`) -/

/-- One item read from `_read_stream`: an `Exception` object placed on the
stream, a `JSONRPCRequest` envelope, or a response/error envelope. -/
inductive InboundItem where
  | exc (msg : String)
  | request (raw : JSONRPCRequest)
  | response (m : ResponseOrError)
deriving Repr

/-- What the loop forwards to `_handle_incoming`: stray exceptions, freshly
registered responders, and responses with an unknown request id
(wrapped in a `RuntimeError`). -/
inductive HandedOff where
  | exception (msg : String)
  | responder (r : Responder)
  | unknownResponse (m : ResponseOrError)
deriving Repr

/-- The `JSONRPCError` sent when an inbound request fails validation:
`INVALID_PARAMS`, message prefix `Failed to validate request: `, `data=""`. -/
def invalid_params_error (id : RequestId) (e : String) : JSONRPCError :=
  ⟨id, { code := INVALID_PARAMS,
         message := "Failed to validate request: " ++ e,
         data := some (Json.str "") }⟩

/-- Effect of one iteration of the `async for` body in `_receive_loop`. -/
structure StepResult where
  state : SessionState
  /-- Envelopes the loop itself wrote to `_write_stream`. -/
  sent : List ResponseOrError
  /-- Items forwarded to `_handle_incoming`. -/
  handed : List HandedOff
  /-- Delivery into a pending caller slot (`stream.send`). -/
  delivered : Option (RequestId × ResponseOrError) := none
  /-- Whether the `async for` proceeds to the next inbound item. -/
  continues : Bool
deriving Repr

/-- One iteration of `_receive_loop` on one inbound item.
`validate_request` embeds `self._receive_request_type.model_validate`
(raising becomes `Except.error`). A request that validates is wrapped in a
responder, registered in `_in_flight` and handed to `_handle_incoming`; a
validation failure sends an `INVALID_PARAMS` error for that request id and
the loop keeps reading. A response envelope pops the matching pending stream
and delivers into it; an unknown id is forwarded as a `RuntimeError`. -/
def receive_step (st : SessionState)
    (validate_request : JSONRPCRequest → Except String Unit)
    (item : InboundItem) : StepResult :=
  match item with
  | .exc msg =>
      { state := st, sent := [], handed := [.exception msg], continues := true }
  | .request raw =>
      match validate_request raw with
      | .ok _ =>
          let responder : Responder := { request_id := raw.id }
          { state := { st with in_flight := rinsert st.in_flight raw.id responder },
            sent := [],
            handed := [.responder responder],
            continues := true }
      | .error e =>
          { state := st,
            sent := [.error (invalid_params_error raw.id e)],
            handed := [],
            continues := true }
  | .response m =>
      let id := match m with
        | .response r => r.id
        | .error e => e.id
      match rlookup st.response_streams id with
      | some _ =>
          { state := { st with response_streams := rpop st.response_streams id },
            sent := [], handed := [],
            delivered := some (id, m),
            continues := true }
      | none =>
          { state := st, sent := [], handed := [.unknownResponse m],
            continues := true }

/-- The `ErrorData` used when draining pending callers at loop exit. -/
def connection_closed_error_data : ErrorData :=
  { code := CONNECTION_CLOSED, message := "Connection closed", data := none }

/-- The `JSONRPCError` envelope sent to a pending caller at loop exit. -/
def connection_closed_error (id : RequestId) : JSONRPCError :=
  ⟨id, connection_closed_error_data⟩

/-- `stream.send` followed by `stream.aclose` on a one-slot stream, with the
surrounding `except Exception: pass`: on an already closed stream nothing
happens; a free slot receives the message; a still-occupied slot keeps its
message (the suspended caller will consume that one). The slot ends closed. -/
def slot_send_and_close (slot : PendingSlot) (m : ResponseOrError) : PendingSlot :=
  if slot.closed then slot
  else
    match slot.buf with
    | none => { buf := some m, closed := true }
    | some x => { buf := some x, closed := true }

/-- The `finally` block of `_receive_loop`, run whether the loop exits by
read-stream exhaustion, `ClosedResourceError`, or any other exception: every
entry still in `_response_streams` is sent a `JSONRPCError` with the
`CONNECTION_CLOSED` code for its id, each stream is closed, and the map is
cleared. Returns (final slot states observable by the suspended callers,
the cleared `_response_streams` map). -/
def drain_response_streams (streams : List (RequestId × PendingSlot)) :
    List (RequestId × PendingSlot) × List (RequestId × PendingSlot) :=
  (streams.map (fun p => (p.1, slot_send_and_close p.2 (.error (connection_closed_error p.1)))),
   [])

end Exp

namespace Exp

/-! ### Wire content types (`src/exp/types.py`) -/

/-- `ContentBlock = TextContent | ImageContent | AudioContent` (the optional
`annotations`/`_meta` fields default to `None` and are omitted). -/
inductive ContentBlock where
  | text (text : String)
  | image (data : String) (mimeType : String)
  | audio (data : String) (mimeType : String)
deriving Repr, BEq

/-- JSON encoding of a content block, as `model_dump` with `exclude_none`
produces it. -/
def ContentBlock.encode : ContentBlock → Json
  | .text t => .obj [("type", .str "text"), ("text", .str t)]
  | .image d m => .obj [("type", .str "image"), ("data", .str d), ("mimeType", .str m)]
  | .audio d m => .obj [("type", .str "audio"), ("data", .str d), ("mimeType", .str m)]

/-- Pydantic validation of one content block from JSON (the discriminator is
the `type` field). -/
def ContentBlock.model_validate (j : Json) : Option ContentBlock :=
  match j with
  | .obj fields =>
      match slookup fields "type" with
      | some (.str "text") =>
          match slookup fields "text" with
          | some (.str t) => some (.text t)
          | _ => none
      | some (.str "image") =>
          match slookup fields "data", slookup fields "mimeType" with
          | some (.str d), some (.str m) => some (.image d m)
          | _, _ => none
      | some (.str "audio") =>
          match slookup fields "data", slookup fields "mimeType" with
          | some (.str d), some (.str m) => some (.audio d m)
          | _, _ => none
      | _ => none
  | _ => none

/-- `types.FunctionT`: a function descriptor with its schemas. -/
structure FunctionT where
  name : String
  title : Option String := none
  description : Option String := none
  inputSchema : Json
  outputSchema : Option Json := none
deriving Repr

/-- `types.CallFunctionResult`. Its declared pydantic fields are `content`,
`structuredResult` and `isError`; `model_config = ConfigDict(extra="allow")`
(inherited from `Result`) means keyword arguments that are not declared
fields — such as the `structuredContent=` keyword the lowlevel server passes —
are kept as extra fields, modelled here as the `extra` association list. -/
structure CallFunctionResult where
  content : List ContentBlock
  structuredResult : Option Structured := none
  isError : Bool := false
  extra : List (String × Json) := []
deriving Repr

/-- Declared field names of `CallFunctionResult` (with the `_meta` alias of
the inherited `meta` field); everything else lands in `extra` on validation. -/
def callFunctionResultFields : List String :=
  ["content", "structuredResult", "isError", "_meta"]

/-- `model_dump(by_alias=True, mode="json", exclude_none=True)` on a
`CallFunctionResult`: declared fields (with `None` values dropped) followed
by the extra fields (with `None` values dropped). -/
def CallFunctionResult.model_dump (r : CallFunctionResult) : Structured :=
  [("content", Json.arr (r.content.map ContentBlock.encode))]
    ++ (match r.structuredResult with
        | some s => [("structuredResult", Json.obj s)]
        | none => [])
    ++ [("isError", Json.bool r.isError)]
    ++ r.extra.filter (fun p => !p.2.isNull)

/-- Decode a list of JSON values as content blocks (all must validate). -/
def decodeContentList : List Json → Option (List ContentBlock)
  | [] => some []
  | j :: js =>
      match ContentBlock.model_validate j, decodeContentList js with
      | some c, some cs => some (c :: cs)
      | _, _ => none

/-- `CallFunctionResult.model_validate` on a result object: `content` is
required, `structuredResult` fills the declared field when present,
`isError` defaults to `False`, and every key that is not a declared field is
kept as an extra field. -/
def CallFunctionResult.model_validate (pairs : Structured) : Option CallFunctionResult :=
  match slookup pairs "content" with
  | some (.arr js) =>
      match decodeContentList js with
      | some content =>
          let structuredResult : Option (Option Structured) :=
            match slookup pairs "structuredResult" with
            | none => some none
            | some .null => some none
            | some (.obj s) => some (some s)
            | some _ => none
          let isError : Option Bool :=
            match slookup pairs "isError" with
            | none => some false
            | some (.bool b) => some b
            | some _ => none
          match structuredResult, isError with
          | some sr, some ie =>
              some { content := content,
                     structuredResult := sr,
                     isError := ie,
                     extra := pairs.filter (fun p => !callFunctionResultFields.contains p.1) }
          | _, _ => none
      | none => none
  | _ => none

end Exp

namespace Exp

/-! ### Lowlevel server dispatch
(`src/exp/exporter/lowlevel/server.py`, `Server.call_function`) -/

/-- The possible return values of the application handler `func`, mirroring
the `isinstance`/`hasattr` normalization chain: a ready `CallFunctionResult`,
a two-element `(content, structured)` tuple, a bare `dict`, any other
iterable, or something else entirely (named by its type). -/
inductive FuncReturn where
  | callResult (r : CallFunctionResult)
  | pair (content : List ContentBlock) (structured : Structured)
  | dict (d : Structured)
  | iterable (content : List ContentBlock)
  | other (typeName : String)
deriving Repr

/-- A JSON Schema validator, embedding `jsonschema.validate(instance, schema)`:
`some msg` is a raised `jsonschema.ValidationError` with that message,
`none` is success. -/
abbrev SchemaValidator := Json → Json → Option String

/-- The application handler as the dispatch layer sees it:
`await func(function_name, arguments)`; `Except.error msg` is a raised
exception whose `str` is `msg`. -/
abbrev AppHandler := String → Structured → Except String FuncReturn

/-- `Server._make_error_result`: an error `CallFunctionResult` with one text
content block (no `structuredContent` keyword is passed, so no extra field). -/
def make_error_result (error_message : String) : CallFunctionResult :=
  { content := [.text error_message], isError := true }

/-- The success construction at the end of the handler:
`types.CallFunctionResult(content=..., structuredContent=..., isError=False)`.
`structuredContent` is not a declared field of `CallFunctionResult`, so under
`extra="allow"` it becomes an extra field; the declared `structuredResult`
field keeps its default `None`. -/
def success_result (content : List ContentBlock) (structured : Option Structured) :
    CallFunctionResult :=
  { content := content,
    structuredResult := none,
    isError := false,
    extra := [("structuredContent",
               match structured with
               | some s => Json.obj s
               | none => Json.null)] }

/-- The tail of the handler shared by the tuple/dict/iterable cases: output
validation (when a descriptor with an `outputSchema` was found) followed by
the success construction. -/
def finish_call (function : Option FunctionT) (schema_validate : SchemaValidator)
    (content : List ContentBlock) (structured : Option Structured) :
    CallFunctionResult :=
  match function with
  | some f =>
      match f.outputSchema with
      | some os =>
          match structured with
          | none =>
              make_error_result
                "Output validation error: outputSchema defined but no structured output returned"
          | some s =>
              match schema_validate (Json.obj s) os with
              | some msg => make_error_result ("Output validation error: " ++ msg)
              | none => success_result content structured
      | none => success_result content structured
  | none => success_result content structured

/-- The handler registered by `Server.call_function(validate_input=...)` for
`functions/call` requests, for one request with `name` and `arguments`
(`req.params.arguments or {}` already applied). `get_function` embeds the
`self._get_function` lookup the handler closure performs. The whole body sits
in `try: ... except Exception as e: return self._make_error_result(str(e))`,
so the handler always produces a `CallFunctionResult`, never a protocol
error and never a propagated exception. -/
def call_function_handler
    (get_function : String → Option FunctionT)
    (validate_input : Bool)
    (schema_validate : SchemaValidator)
    (func : AppHandler)
    (name : String) (arguments : Structured) : CallFunctionResult :=
  let function := get_function name
  let input_error : Option String :=
    if validate_input then
      match function with
      | some f => schema_validate (Json.obj arguments) f.inputSchema
      | none => none
    else none
  match input_error with
  | some msg => make_error_result ("Input validation error: " ++ msg)
  | none =>
      match func name arguments with
      | .error e => make_error_result e
      | .ok results =>
          match results with
          | .callResult r => r
          | .pair content structured =>
              finish_call function schema_validate content (some structured)
          | .dict d =>
              finish_call function schema_validate
                [.text (Json.dumps (Json.obj d))] (some d)
          | .iterable content =>
              finish_call function schema_validate content none
          | .other typeName =>
              make_error_result ("Unexpected return type from function: " ++ typeName)

/-! ### Function manager
(`src/exp/exporter/highlevel/functions/function_manager.py`) -/

/-- `FunctionManager.call_function`: looks the function up in the registry;
an unknown name raises `FunctionError(f"Unknown function: {name}")`, whose
`str` is that message; otherwise the registered function runs. -/
def FunctionManager.call_function {φ : Type}
    (functions : List (String × φ))
    (run : φ → Structured → Except String FuncReturn)
    (name : String) (arguments : Structured) : Except String FuncReturn :=
  match slookup functions name with
  | none => .error ("Unknown function: " ++ name)
  | some f => run f arguments

/-! ### Highlevel server composition
(`src/exp/exporter/highlevel/server.py`, `Exporter._setup_handlers`) -/

/-- `Server._get_function` as defined on the class: its body is `pass`, so it
returns `None` for every name. This is the method the `call_function` handler
closure resolves when it evaluates `self._get_function(function_name)`. -/
def Server.get_function_method : String → Option FunctionT :=
  fun _ => none

/-- The attributes of the lowlevel `Server` object that
`Exporter._setup_handlers` touches. Python attribute semantics matter here:
the assignment `self._mcp_server.get_function = self.get_function` creates an
instance attribute named `get_function`; the class method `_get_function`
(a different name) is untouched, and it is `_get_function` the registered
handler calls. -/
structure ComposedServer where
  /-- The instance attribute `get_function` assigned by the Exporter. -/
  get_function : String → Option FunctionT
  /-- The lookup the registered `functions/call` handler actually uses:
  the resolution of `self._get_function`, still the class method. -/
  handler_lookup : String → Option FunctionT
  /-- The flag passed to `Server.call_function` during setup. -/
  validate_input : Bool

/-- `Exporter._setup_handlers` restricted to the `functions/call` path: the
handler is registered with `call_function(validate_input=True)`, and the
Exporter lookup (`Exporter.get_function`, backed by the function manager
registry) is assigned to the attribute `get_function` — not `_get_function`. -/
def Exporter.setup_handlers (registry : List (String × FunctionT)) : ComposedServer :=
  { get_function := fun name => slookup registry name,
    handler_lookup := Server.get_function_method,
    validate_input := true }

end Exp

namespace Exp

/-! ### Client session (`src/exp/importer/session.py`, `ClientSession`) -/

/-- `types.ServerCapabilities`: the function-descriptor map advertised by the
server (the `classes` map plays no role here). -/
structure ServerCapabilities where
  functions : List (String × FunctionT)
deriving Repr

/-- `ClientSession` state: the cached `_server_capabilities`. -/
structure ClientState where
  server_capabilities : Option ServerCapabilities := none
deriving Repr

/-- How the client call path can fail: an `McpError` (propagating out of
`send_request`, also during the implicit `initialize`) or a `RuntimeError`
raised by result validation. -/
inductive ClientError where
  | mcpError (e : ErrorData)
  | runtimeError (msg : String)
deriving Repr

/-- `ClientSession._validate_function_result`: when no capabilities are
cached yet, `initialize()` runs first (its environment outcome is the
`init_outcome` parameter; on success it stores the returned capabilities).
If the name is then absent from the capability map, a `RuntimeError` with
message `result schema not found !` is raised. Otherwise the output schema
for the name (when declared) is checked against `result.structuredResult`
via `jsonschema.validate`. Returns the updated client state. -/
def validate_function_result
    (st : ClientState)
    (init_outcome : Except ErrorData ServerCapabilities)
    (schema_validate : SchemaValidator)
    (name : String) (result : CallFunctionResult) :
    Except ClientError ClientState :=
  let capsE : Except ClientError (ServerCapabilities × ClientState) :=
    match st.server_capabilities with
    | some caps => .ok (caps, st)
    | none =>
        match init_outcome with
        | .error e => .error (.mcpError e)
        | .ok caps => .ok (caps, { st with server_capabilities := some caps })
  match capsE with
  | .error e => .error e
  | .ok (caps, st') =>
      match slookup caps.functions name with
      | none => .error (.runtimeError "result schema not found !")
      | some f =>
          match f.outputSchema with
          | none => .ok st'
          | some os =>
              match result.structuredResult with
              | none =>
                  .error (.runtimeError
                    ("Function " ++ name ++
                      " has an output schema but did not return structured content"))
              | some s =>
                  match schema_validate (Json.obj s) os with
                  | some msg =>
                      .error (.runtimeError
                        ("Invalid structured content returned by function " ++
                          name ++ ": " ++ msg))
                  | none => .ok st'

/-- `ClientSession.call_function`: sends the `functions/call` request
(environment outcome `send_outcome`: an `McpError`/exception from
`send_request`, or the validated `CallFunctionResult`). A result with
`isError = True` is returned as-is, with no validation and no state change;
otherwise `_validate_function_result` runs before the result is returned. -/
def ClientSession.call_function
    (st : ClientState)
    (send_outcome : Except ErrorData CallFunctionResult)
    (init_outcome : Except ErrorData ServerCapabilities)
    (schema_validate : SchemaValidator)
    (name : String) :
    Except ClientError (CallFunctionResult × ClientState) :=
  match send_outcome with
  | .error e => .error (.mcpError e)
  | .ok result =>
      if result.isError then .ok (result, st)
      else
        match validate_function_result st init_outcome schema_validate name result with
        | .error e => .error e
        | .ok st' => .ok (result, st')

end Exp

namespace Exp

/-- After removing a key from an association map, looking it up gives `none`
(the shared bookkeeping fact behind the no-leak properties). -/
theorem rlookup_rpop {α : Type} (m : List (RequestId × α)) (k : RequestId) :
    rlookup (rpop m k) k = none := by
  induction m with
  | nil => rfl
  | cons p rest ih =>
      rcases p with ⟨k', v⟩
      by_cases h : k' = k
      · simpa [rpop, List.filter_cons, h] using ih
      · simpa [rpop, List.filter_cons, h, rlookup] using ih

/-- C6: for every call to `send_request`, the pending entry registered under
the freshly allocated request id (the current `_request_id` counter value) is
removed from `_response_streams` on every exit path — whatever the awaited
outcome (successful result, error response, timeout, failed write, result
validation failure), no entry for that id remains after the call. -/
theorem send_request_no_pending_leak {ρ : Type}
    (st : SessionState) (requestClassName : String)
    (validate_result : Structured → Except String ρ)
    (request_read_timeout_seconds : Option ℚ) (awaited : AwaitOutcome) :
    rlookup (send_request st requestClassName validate_result
        request_read_timeout_seconds awaited).2.response_streams
        (.num st.request_id) = none := by
  simpa [send_request] using
    rlookup_rpop (rinsert st.response_streams (.num st.request_id) {}) (.num st.request_id)

/-- C7: with no per-request timeout and no session read timeout the wait is
bounded by the default of 20 seconds; a per-call timeout overrides the
default; and when the awaited outcome is the timeout, `send_request` raises
an `McpError` carrying the request-timeout code (408) rather than returning. -/
theorem send_request_default_timeout {ρ : Type}
    (rid : Int) (streams : List (RequestId × PendingSlot))
    (pcs : List (RequestId × Unit)) (infl : List (RequestId × Responder))
    (requestClassName : String)
    (validate_result : Structured → Except String ρ)
    (t : ℚ) (sess : Option ℚ) :
    effective_timeout none none = 20
    ∧ effective_timeout (some t) sess = t
    ∧ (send_request
          { request_id := rid, session_read_timeout := none,
            response_streams := streams, progress_callbacks := pcs,
            in_flight := infl }
          requestClassName validate_result none .timedOut).1
        = .error (.mcpError
            { code := REQUEST_TIMEOUT,
              message := timeout_message requestClassName 20 }) :=
  ⟨rfl, rfl, rfl⟩

/-- C1: when the receive loop exits (read stream exhausted or an unexpected
failure), its `finally` block clears `_response_streams` and sends every
still-pending entry (slot free, caller still suspended) a `JSONRPCError`
carrying the `CONNECTION_CLOSED` code (-32000) for its id; a caller suspended
in `send_request` that receives this envelope raises `McpError` with that
`ErrorData` instead of waiting forever. -/
theorem receive_loop_drains_pending_on_close
    (streams : List (RequestId × PendingSlot)) (id : RequestId)
    (h : (id, ({} : PendingSlot)) ∈ streams) :
    (drain_response_streams streams).2 = []
    ∧ (id, (⟨some (.error (connection_closed_error id)), true⟩ : PendingSlot))
        ∈ (drain_response_streams streams).1
    ∧ (connection_closed_error id).error.code = CONNECTION_CLOSED
    ∧ ∀ {ρ : Type} (st : SessionState) (rcn : String)
        (vr : Structured → Except String ρ) (prt : Option ℚ) (eid : RequestId),
        (send_request st rcn vr prt
            (.delivered (.error (connection_closed_error eid)))).1
          = .error (.mcpError connection_closed_error_data) := by
  refine ⟨rfl, ?_, rfl, fun st rcn vr prt eid => rfl⟩
  have := List.mem_map_of_mem
    (fun p : RequestId × PendingSlot =>
      (p.1, slot_send_and_close p.2 (.error (connection_closed_error p.1)))) h
  simpa [drain_response_streams, slot_send_and_close] using this

/-- Witness for C1 at a concrete pending map with one suspended caller, the
caller-side conjunct instantiated at a concrete session. -/
theorem receive_loop_drains_pending_on_close_witness :
    ((RequestId.num 0, ({} : PendingSlot)) ∈ [(RequestId.num 0, ({} : PendingSlot))])
    ∧ (drain_response_streams [(RequestId.num 0, ({} : PendingSlot))]).2 = []
    ∧ (RequestId.num 0,
        (⟨some (.error (connection_closed_error (.num 0))), true⟩ : PendingSlot))
        ∈ (drain_response_streams [(RequestId.num 0, ({} : PendingSlot))]).1
    ∧ (connection_closed_error (.num 0)).error.code = CONNECTION_CLOSED
    ∧ (send_request {} "CallFunctionRequest" (fun r => .ok r) none
          (.delivered (.error (connection_closed_error (.num 0))))).1
        = .error (.mcpError connection_closed_error_data) :=
  ⟨List.mem_singleton.mpr rfl,
   (receive_loop_drains_pending_on_close _ _ (List.mem_singleton.mpr rfl)).1,
   (receive_loop_drains_pending_on_close _ _ (List.mem_singleton.mpr rfl)).2.1,
   (receive_loop_drains_pending_on_close [(RequestId.num 0, {})] (.num 0)
     (List.mem_singleton.mpr rfl)).2.2.1,
   (receive_loop_drains_pending_on_close [(RequestId.num 0, {})] (.num 0)
     (List.mem_singleton.mpr rfl)).2.2.2
     {} "CallFunctionRequest" (fun r => .ok r) none (.num 0)⟩

/-- C8: an inbound request envelope whose body fails validation against the
expected request type makes the receive loop send back exactly one
`JSONRPCError` for that request id with the `INVALID_PARAMS` code (-32602),
register no responder (the session state, in particular `_in_flight`, is
unchanged and nothing is handed to `_handle_incoming`), and continue reading
the stream. -/
theorem invalid_request_sends_invalid_params
    (st : SessionState) (validate_request : JSONRPCRequest → Except String Unit)
    (raw : JSONRPCRequest) (e : String)
    (h : validate_request raw = .error e) :
    (receive_step st validate_request (.request raw)).sent
        = [.error (invalid_params_error raw.id e)]
    ∧ (invalid_params_error raw.id e).error.code = INVALID_PARAMS
    ∧ (receive_step st validate_request (.request raw)).state = st
    ∧ (receive_step st validate_request (.request raw)).handed = []
    ∧ (receive_step st validate_request (.request raw)).continues = true := by
  simp [receive_step, h, invalid_params_error, INVALID_PARAMS]

/-- Witness for C8 at a concrete failing validation. -/
theorem invalid_request_sends_invalid_params_witness :
    ((fun _ : JSONRPCRequest => (.error "field required" : Except String Unit))
        ⟨.num 3, "functions/call", none⟩ = .error "field required")
    ∧ ((receive_step {} (fun _ => .error "field required")
          (.request ⟨.num 3, "functions/call", none⟩)).sent
        = [.error (invalid_params_error (.num 3) "field required")]
      ∧ (invalid_params_error (.num 3) "field required").error.code = INVALID_PARAMS
      ∧ (receive_step {} (fun _ => .error "field required")
          (.request ⟨.num 3, "functions/call", none⟩)).state = {}
      ∧ (receive_step {} (fun _ => .error "field required")
          (.request ⟨.num 3, "functions/call", none⟩)).handed = []
      ∧ (receive_step {} (fun _ => .error "field required")
          (.request ⟨.num 3, "functions/call", none⟩)).continues = true) :=
  ⟨rfl, invalid_request_sends_invalid_params {} _ _ "field required" rfl⟩

end Exp

namespace Exp

/-- C2: on an entered, not-yet-completed, not-cancelled responder, a first
`respond` sends exactly one response envelope for the request id and marks
the responder complete; a second `respond` on the resulting responder fails
fast with the `AssertionError` (`Request already responded to`) and sends
nothing (the failing call produces no envelope); and `respond` outside the
entered scope fails fast with the `RuntimeError` and sends nothing. -/
theorem responder_at_most_one_response
    (r : Responder) (response response2 : Structured ⊕ ErrorData)
    (hent : r.entered = true) (hcomp : r.completed = false)
    (hcanc : r.cancel_called = false) :
    (r.respond response
        = .ok ({ r with completed := true },
               [send_response_message r.request_id response]))
    ∧ (({ r with completed := true } : Responder).respond response2
        = .error (.assertionError "Request already responded to"))
    ∧ (∀ (q : Responder) (p : Structured ⊕ ErrorData), q.entered = false →
        q.respond p
          = .error (.runtimeError "RequestResponder must be used as a context manager")) := by
  refine ⟨?_, ?_, ?_⟩
  · simp [Responder.respond, hent, hcomp, hcanc]
  · simp [Responder.respond, hent]
  · intro q p hq
    simp [Responder.respond, hq]

/-- Witness for C2 at a concrete entered responder, the outside-scope
conjunct instantiated at a concrete non-entered responder. -/
theorem responder_at_most_one_response_witness :
    ((⟨.num 7, false, true, false⟩ : Responder).entered = true
      ∧ (⟨.num 7, false, true, false⟩ : Responder).completed = false
      ∧ (⟨.num 7, false, true, false⟩ : Responder).cancel_called = false)
    ∧ ((⟨.num 7, false, true, false⟩ : Responder).respond (.inr cancelledError)
        = .ok (⟨.num 7, true, true, false⟩,
               [send_response_message (.num 7) (.inr cancelledError)]))
    ∧ ((⟨.num 7, true, true, false⟩ : Responder).respond (.inr cancelledError)
        = .error (.assertionError "Request already responded to"))
    ∧ ((⟨.num 7, false, false, false⟩ : Responder).entered = false
      ∧ (⟨.num 7, false, false, false⟩ : Responder).respond (.inr cancelledError)
        = .error (.runtimeError "RequestResponder must be used as a context manager")) :=
  ⟨⟨rfl, rfl, rfl⟩,
   (responder_at_most_one_response ⟨.num 7, false, true, false⟩
     (.inr cancelledError) (.inr cancelledError) rfl rfl rfl).1,
   (responder_at_most_one_response ⟨.num 7, false, true, false⟩
     (.inr cancelledError) (.inr cancelledError) rfl rfl rfl).2.1,
   rfl,
   (responder_at_most_one_response ⟨.num 7, false, true, false⟩
     (.inr cancelledError) (.inr cancelledError) rfl rfl rfl).2.2
     ⟨.num 7, false, false, false⟩ (.inr cancelledError) rfl⟩

/-- C9: on an entered responder, `cancel` arms the cancellation scope
(`cancel_called`), marks the responder complete, and sends exactly one
`JSONRPCError` for the request id carrying the cancellation error
(code 0, message `Request cancelled`); because it is marked complete, the
context-manager exit removes it from the in-flight map; and among the
responder operations, `cancel` is the only one that completes a responder
without a caller-supplied response payload (and what it sends is exactly the
synthesized cancellation error). -/
theorem responder_cancel_resolves_in_flight
    (r : Responder) (hent : r.entered = true) :
    (r.cancel = .ok ({ r with cancel_called := true, completed := true },
        [.error ⟨r.request_id, cancelledError⟩]))
    ∧ cancelledError = { code := 0, message := "Request cancelled", data := none }
    ∧ (∀ (infl : List (RequestId × Responder)),
        rlookup ((Responder.exit
            { r with cancel_called := true, completed := true } infl).2)
          r.request_id = none)
    ∧ (∀ (q : Responder) (op : ResponderOp) (q' : Responder)
          (sent : List ResponseOrError),
        q.completed = false →
        q.applyOp op = .ok (q', sent) →
        q'.completed = true →
        op.isRespond = false →
        op = .cancelOp ∧ sent = [.error ⟨q.request_id, cancelledError⟩]) := by
  refine ⟨?_, rfl, ?_, ?_⟩
  · simp [Responder.cancel, hent]
  · intro infl
    simpa [Responder.exit] using rlookup_rpop infl r.request_id
  · intro q op q' sent hq hop hq' hnop
    cases op with
    | respondOp p => simp [ResponderOp.isRespond] at hnop
    | cancelOp =>
        refine ⟨rfl, ?_⟩
        by_cases hqe : q.entered
        · simp [Responder.applyOp, Responder.cancel, hqe] at hop
          exact hop.2.symm
        · simp [Responder.applyOp, Responder.cancel, hqe] at hop

/-- Witness for C9 at a concrete entered responder, with the in-flight map
and the only-path conjunct instantiated at concrete values. -/
theorem responder_cancel_resolves_in_flight_witness :
    ((⟨.num 2, false, true, false⟩ : Responder).entered = true)
    ∧ ((⟨.num 2, false, true, false⟩ : Responder).cancel
        = .ok (⟨.num 2, true, true, true⟩,
               [.error ⟨.num 2, cancelledError⟩]))
    ∧ cancelledError = { code := 0, message := "Request cancelled", data := none }
    ∧ rlookup ((Responder.exit (⟨.num 2, true, true, true⟩ : Responder)
          [(RequestId.num 2, (⟨.num 2, true, true, true⟩ : Responder))]).2)
        (.num 2) = none
    ∧ ((⟨.num 2, false, true, false⟩ : Responder).completed = false
      ∧ (⟨.num 2, false, true, false⟩ : Responder).applyOp .cancelOp
          = .ok (⟨.num 2, true, true, true⟩, [.error ⟨.num 2, cancelledError⟩])
      ∧ (⟨.num 2, true, true, true⟩ : Responder).completed = true
      ∧ ResponderOp.cancelOp.isRespond = false
      ∧ (ResponderOp.cancelOp = ResponderOp.cancelOp
        ∧ ([ResponseOrError.error
              ⟨(⟨.num 2, false, true, false⟩ : Responder).request_id, cancelledError⟩]
            : List ResponseOrError)
            = [.error ⟨.num 2, cancelledError⟩])) :=
  ⟨rfl,
   (responder_cancel_resolves_in_flight ⟨.num 2, false, true, false⟩ rfl).1,
   (responder_cancel_resolves_in_flight ⟨.num 2, false, true, false⟩ rfl).2.1,
   (responder_cancel_resolves_in_flight ⟨.num 2, false, true, false⟩ rfl).2.2.1
     [(RequestId.num 2, (⟨.num 2, true, true, true⟩ : Responder))],
   rfl, rfl, rfl, rfl,
   (responder_cancel_resolves_in_flight ⟨.num 2, false, true, false⟩ rfl).2.2.2
     ⟨.num 2, false, true, false⟩ ResponderOp.cancelOp ⟨.num 2, true, true, true⟩
     [ResponseOrError.error ⟨.num 2, cancelledError⟩] rfl rfl rfl rfl⟩

end Exp

namespace Exp

/-- C3: if the application handler raises (here: returns `Except.error e`,
the embedding of a raised exception with `str(e) = e`), the registered
`functions/call` handler returns an error `CallFunctionResult` whose single
text content block carries the exception message — by construction it is a
Call Result, not a protocol `ErrorData`, and nothing propagates. The
hypothesis `hreach` states that the flow reaches the handler invocation
(no descriptor was found, or input validation is off or passes). The final
conjunct covers the unknown-function case: `FunctionManager.call_function`
on an unregistered name raises `FunctionError` naming the function. -/
theorem handler_exception_becomes_error_result
    (get_function : String → Option FunctionT) (validate_input : Bool)
    (schema_validate : SchemaValidator) (func : AppHandler)
    (name : String) (arguments : Structured) (e : String)
    (hreach : get_function name = none
      ∨ ∃ f, get_function name = some f
          ∧ (validate_input = false
            ∨ schema_validate (Json.obj arguments) f.inputSchema = none))
    (hraise : func name arguments = .error e) :
    call_function_handler get_function validate_input schema_validate func name arguments
      = make_error_result e
    ∧ (make_error_result e).isError = true
    ∧ (make_error_result e).content = [.text e]
    ∧ (∀ {φ : Type} (functions : List (String × φ))
          (run : φ → Structured → Except String FuncReturn),
        slookup functions name = none →
        FunctionManager.call_function functions run name arguments
          = .error ("Unknown function: " ++ name)) := by
  refine ⟨?_, rfl, rfl, ?_⟩
  · rcases hreach with hnone | ⟨f, hf, hvi⟩
    · cases validate_input <;> simp [call_function_handler, hnone, hraise]
    · rcases hvi with hvi | hok
      · simp [call_function_handler, hf, hvi, hraise]
      · cases validate_input <;> simp [call_function_handler, hf, hok, hraise]
  · intro φ functions run hnone
    simp [FunctionManager.call_function, hnone]

/-- Witness for C3: the dispatch composed with an empty function registry,
called with an unknown name (the reach hypothesis holds because the lookup
finds no descriptor; the unknown-function conjunct is instantiated at the
empty registry). -/
theorem handler_exception_becomes_error_result_witness :
    (((fun _ : String => (none : Option FunctionT)) "missing" = none)
      ∧ FunctionManager.call_function ([] : List (String × FunctionT))
          (fun _ _ => .ok (.iterable [])) "missing" []
          = .error "Unknown function: missing")
    ∧ (call_function_handler (fun _ => none) true (fun _ _ => none)
          (FunctionManager.call_function ([] : List (String × FunctionT))
            (fun _ _ => .ok (.iterable [])))
          "missing" []
        = make_error_result ("Unknown function: " ++ "missing"))
    ∧ (make_error_result ("Unknown function: " ++ "missing")).isError = true
    ∧ (make_error_result ("Unknown function: " ++ "missing")).content
        = [.text ("Unknown function: " ++ "missing")]
    ∧ FunctionManager.call_function ([] : List (String × FunctionT))
        (fun _ _ => .ok (.iterable [])) "missing" []
        = .error ("Unknown function: " ++ "missing") :=
  ⟨⟨rfl, rfl⟩,
   (handler_exception_becomes_error_result (fun _ => none) true (fun _ _ => none)
     (FunctionManager.call_function ([] : List (String × FunctionT))
       (fun _ _ => .ok (.iterable [])))
     "missing" [] "Unknown function: missing" (Or.inl rfl) rfl).1,
   rfl, rfl,
   (handler_exception_becomes_error_result (fun _ => none) true (fun _ _ => none)
     (FunctionManager.call_function ([] : List (String × FunctionT))
       (fun _ _ => .ok (.iterable [])))
     "missing" [] "Unknown function: missing" (Or.inl rfl) rfl).2.2.2
     ([] : List (String × FunctionT)) (fun _ _ => .ok (.iterable [])) rfl⟩

/-- C4 counterexample: in the server as composed by the Exporter, for the add
example (the application handler returns the bare dict `{"result": 11}` for
arguments `{a: 5, b: 6}`), the declared `structuredResult` field of the
dispatched result is `none` — the dict is *not* under `structuredResult`,
contrary to the claim (it lands in the extra field `structuredContent`). -/
theorem call_dict_structuredResult_counterexample :
    (call_function_handler (Exporter.setup_handlers []).handler_lookup true
        (fun _ _ => none)
        (fun _ _ => .ok (.dict [("result", Json.num 11)]))
        "add" [("a", Json.num 5), ("b", Json.num 6)]).structuredResult
      ≠ some [("result", Json.num 11)] := by
  intro h
  have hnone : (call_function_handler (Exporter.setup_handlers []).handler_lookup true
      (fun _ _ => none)
      (fun _ _ => .ok (.dict [("result", Json.num 11)]))
      "add" [("a", Json.num 5), ("b", Json.num 6)]).structuredResult
      = none := rfl
  rw [hnone] at h
  exact Option.noConfusion h

/-- C4 amended: for every `functions/call` whose application handler returns
a bare dict, the Exporter-composed dispatch normalizes it into a non-error
Call Result whose *extra* field `structuredContent` equals that dict (the
keyword `structuredContent=` is not a declared field of
`CallFunctionResult`, so the declared `structuredResult` field stays `none`)
and whose content is a single generated text block rendering the dict as
JSON; the wire dump carries the payload under the `structuredContent` key
(and no `structuredResult` key), and the client re-validating the dump gets
`isError = false` with the payload intact under the extra
`structuredContent` field. -/
theorem call_dict_result_normalization
    (registry : List (String × FunctionT)) (schema_validate : SchemaValidator)
    (func : AppHandler) (name : String) (arguments : Structured) (d : Structured)
    (hret : func name arguments = .ok (.dict d)) :
    call_function_handler (Exporter.setup_handlers registry).handler_lookup
        (Exporter.setup_handlers registry).validate_input schema_validate
        func name arguments
      = success_result [.text (Json.dumps (Json.obj d))] (some d)
    ∧ (success_result [.text (Json.dumps (Json.obj d))] (some d)).isError = false
    ∧ (success_result [.text (Json.dumps (Json.obj d))] (some d)).structuredResult = none
    ∧ (success_result [.text (Json.dumps (Json.obj d))] (some d)).extra
        = [("structuredContent", Json.obj d)]
    ∧ slookup ((success_result [.text (Json.dumps (Json.obj d))] (some d)).model_dump)
        "structuredContent" = some (Json.obj d)
    ∧ slookup ((success_result [.text (Json.dumps (Json.obj d))] (some d)).model_dump)
        "structuredResult" = none
    ∧ CallFunctionResult.model_validate
        ((success_result [.text (Json.dumps (Json.obj d))] (some d)).model_dump)
      = some (success_result [.text (Json.dumps (Json.obj d))] (some d)) := by
  refine ⟨?_, rfl, rfl, rfl, ?_, ?_, ?_⟩
  · simp [call_function_handler, Exporter.setup_handlers, Server.get_function_method,
      finish_call, hret]
  · rfl
  · rfl
  · rfl

/-- Witness for C4 (amended) at the concrete add example. -/
theorem call_dict_result_normalization_witness :
    ((fun _ _ => (.ok (.dict [("result", Json.num 11)]) : Except String FuncReturn))
        "add" [("a", Json.num 5), ("b", Json.num 6)]
      = .ok (.dict [("result", Json.num 11)]))
    ∧ (call_function_handler (Exporter.setup_handlers []).handler_lookup
          (Exporter.setup_handlers []).validate_input (fun _ _ => none)
          (fun _ _ => .ok (.dict [("result", Json.num 11)]))
          "add" [("a", Json.num 5), ("b", Json.num 6)]
        = success_result
            [.text (Json.dumps (Json.obj [("result", Json.num 11)]))]
            (some [("result", Json.num 11)])
      ∧ (success_result
            [.text (Json.dumps (Json.obj [("result", Json.num 11)]))]
            (some [("result", Json.num 11)])).isError = false
      ∧ (success_result
            [.text (Json.dumps (Json.obj [("result", Json.num 11)]))]
            (some [("result", Json.num 11)])).structuredResult = none
      ∧ (success_result
            [.text (Json.dumps (Json.obj [("result", Json.num 11)]))]
            (some [("result", Json.num 11)])).extra
          = [("structuredContent", Json.obj [("result", Json.num 11)])]
      ∧ slookup ((success_result
            [.text (Json.dumps (Json.obj [("result", Json.num 11)]))]
            (some [("result", Json.num 11)])).model_dump)
          "structuredContent" = some (Json.obj [("result", Json.num 11)])
      ∧ slookup ((success_result
            [.text (Json.dumps (Json.obj [("result", Json.num 11)]))]
            (some [("result", Json.num 11)])).model_dump)
          "structuredResult" = none
      ∧ CallFunctionResult.model_validate
          ((success_result
            [.text (Json.dumps (Json.obj [("result", Json.num 11)]))]
            (some [("result", Json.num 11)])).model_dump)
        = some (success_result
            [.text (Json.dumps (Json.obj [("result", Json.num 11)]))]
            (some [("result", Json.num 11)]))) :=
  ⟨rfl,
   call_dict_result_normalization [] (fun _ _ => none)
     (fun _ _ => .ok (.dict [("result", Json.num 11)]))
     "add" [("a", Json.num 5), ("b", Json.num 6)] [("result", Json.num 11)] rfl⟩

end Exp

namespace Exp

/-- C5: `Exporter._setup_handlers` assigns the registry-backed lookup to the
attribute `get_function`, while the handler keeps calling `_get_function` —
the class method whose body is `pass`. Hence the descriptor lookup used
inside the registered `functions/call` handler returns `none` for every
name, and the handler behaves identically for any value of `validate_input`
and any schema validator: the input-schema and output-schema validation
branches are never executed, even when the registry declares schemas. -/
theorem exporter_lookup_misassigned_no_validation
    (registry : List (String × FunctionT)) :
    ((Exporter.setup_handlers registry).get_function
        = fun name => slookup registry name)
    ∧ (Exporter.setup_handlers registry).validate_input = true
    ∧ (∀ name, (Exporter.setup_handlers registry).handler_lookup name = none)
    ∧ (∀ (vi vi' : Bool) (sv sv' : SchemaValidator) (func : AppHandler)
          (name : String) (args : Structured),
        call_function_handler (Exporter.setup_handlers registry).handler_lookup
            vi sv func name args
          = call_function_handler (Exporter.setup_handlers registry).handler_lookup
              vi' sv' func name args) := by
  refine ⟨rfl, rfl, fun name => rfl, ?_⟩
  intro vi vi' sv sv' func name args
  rcases hf : func name args with e | res
  · cases vi <;> cases vi' <;>
      simp [call_function_handler, Exporter.setup_handlers,
        Server.get_function_method, hf]
  · rcases res with r | ⟨c, s⟩ | d | c | tn <;>
      cases vi <;> cases vi' <;>
        simp [call_function_handler, Exporter.setup_handlers,
          Server.get_function_method, finish_call, hf]

/-- C10 counterexample: on a non-error result with no cached capabilities,
after the implicit initialize the name is absent from the capability map and
the client fails — but with the message `result schema not found !`, not the
message `result schema not found` stated by the claim. -/
theorem client_result_schema_message_counterexample :
    ClientSession.call_function {} (.ok { content := [] }) (.ok ⟨[]⟩)
        (fun _ _ => none) "add"
      = .error (.runtimeError "result schema not found !")
    ∧ "result schema not found !" ≠ "result schema not found" := by
  exact ⟨rfl, by decide⟩

/-- C10 amended: for every client `call_function`: a result with
`isError = true` is returned as-is with no schema validation and no state
change; on `isError = false` the client validates against the cached output
schema for the name, implicitly running initialize first (and caching its
capabilities) when none are cached; and if the name is absent from the
capabilities after that, it fails — raising `RuntimeError` with message
`result schema not found !` — instead of returning the result. -/
theorem client_call_function_validation
    (st : ClientState) (r : CallFunctionResult)
    (init_outcome : Except ErrorData ServerCapabilities)
    (sv : SchemaValidator) (name : String) (caps : ServerCapabilities) :
    (r.isError = true →
        ClientSession.call_function st (.ok r) init_outcome sv name = .ok (r, st))
    ∧ (r.isError = false → st.server_capabilities = none →
        init_outcome = .ok caps → slookup caps.functions name = none →
        ClientSession.call_function st (.ok r) init_outcome sv name
          = .error (.runtimeError "result schema not found !"))
    ∧ (r.isError = false → st.server_capabilities = some caps →
        slookup caps.functions name = none →
        ClientSession.call_function st (.ok r) init_outcome sv name
          = .error (.runtimeError "result schema not found !"))
    ∧ (∀ f os s, r.isError = false → st.server_capabilities = some caps →
        slookup caps.functions name = some f → f.outputSchema = some os →
        r.structuredResult = some s → sv (Json.obj s) os = none →
        ClientSession.call_function st (.ok r) init_outcome sv name
          = .ok (r, st)) := by
  refine ⟨?_, ?_, ?_, ?_⟩
  · intro he
    simp [ClientSession.call_function, he]
  · intro he hcaps hinit hmiss
    simp [ClientSession.call_function, validate_function_result,
      he, hcaps, hinit, hmiss]
  · intro he hcaps hmiss
    simp [ClientSession.call_function, validate_function_result,
      he, hcaps, hmiss]
  · intro f os s he hcaps hfind hos hsr hok
    simp [ClientSession.call_function, validate_function_result,
      he, hcaps, hfind, hos, hsr, hok]

/-- Witness for C10 (amended) at concrete inputs: an error result passes
through untouched, and a non-error result for a name missing from the
(implicitly initialized, empty) capability map raises the RuntimeError. -/
theorem client_call_function_validation_witness :
    (({ content := [], isError := true } : CallFunctionResult).isError = true
      ∧ ClientSession.call_function {} (.ok { content := [], isError := true })
          (.ok ⟨[]⟩) (fun _ _ => none) "add"
        = .ok ({ content := [], isError := true }, {}))
    ∧ (({ content := [] } : CallFunctionResult).isError = false
      ∧ (ClientState.mk none).server_capabilities = none
      ∧ slookup (ServerCapabilities.mk []).functions "add" = none
      ∧ ClientSession.call_function {} (.ok { content := [] })
          (.ok ⟨[]⟩) (fun _ _ => none) "add"
        = .error (.runtimeError "result schema not found !")) :=
  ⟨⟨rfl,
    (client_call_function_validation {} { content := [], isError := true }
      (.ok ⟨[]⟩) (fun _ _ => none) "add" ⟨[]⟩).1 rfl⟩,
   ⟨rfl, rfl, rfl,
    (client_call_function_validation {} { content := [] }
      (.ok ⟨[]⟩) (fun _ _ => none) "add" ⟨[]⟩).2.1 rfl rfl rfl rfl⟩⟩

end Exp
